import Mathlib

/-!
Verification of `repro` (an experiment-running harness for training image
classifiers) against its natural-language specification.

The development shallowly embeds the three source files:
  * `src/repro/train.py` — learning-rate schedule (`MultiStepLR`, a subclass
    of the external scheduler base class), the training driver callbacks
    (`trainer_load_checkpoint`, `trainer_seeding`, `trainer_save_checkpoint`),
    the `seed` helper and the post-loop epilogue of `train`;
  * `src/repro/dataset/tinyimagenet.py` — dataset preparation
    (`build_dataset`) and the validation/test index split in `build`;
  * `bin/0.benchmark/zoo/save.py` — batch-submission command formatting.

Machine floats of the Python code are modelled as rationals, timestamps as
integers counting seconds, the file system as the list of names present in
the data directory, and Python exceptions as explicit error results.
-/

/-! ## bisect_right (Python standard library `bisect.bisect_right`)

Python's `bisect_right(a, x)` runs a binary search:
`lo, hi = 0, len(a)`; while `lo < hi`: `mid = (lo+hi)//2`;
if `x < a[mid]` then `hi = mid` else `lo = mid + 1`; return `lo`.
The loop shrinks `hi - lo` by at least one per iteration, so
`a.length + 1` fuel always suffices. -/

def bisect_right_loop (a : List Int) (x : Int) : Nat → Nat → Nat → Nat
  | 0, lo, _hi => lo
  | fuel + 1, lo, hi =>
    if lo < hi then
      let mid := (lo + hi) / 2
      if x < a.getD mid 0 then bisect_right_loop a x fuel lo mid
      else bisect_right_loop a x fuel (mid + 1) hi
    else lo

def bisect_right (a : List Int) (x : Int) : Nat :=
  bisect_right_loop a x (a.length + 1) 0 a.length

/-! ## MultiStepLR (train.py lines 54–64)

The scheduler state gathers the fields used by `get_lr`: the milestone
list and `gamma`/`base_lrs`/`last_epoch` stored by the external base
class, plus the subclass's own `div_first_epoch`. In the source
`div_first_epoch` receives a Python int (a list element) and is tested
for truthiness, so it is kept as an integer here, nonzero meaning true. -/

structure MultiStepLRState where
  milestones : List Int
  gamma : ℚ
  div_first_epoch : Int
  last_epoch : Int
  base_lrs : List ℚ
deriving DecidableEq, Repr

/-- `MultiStepLR.__init__` stores `div_first_epoch` and forwards the
literals `gamma=0.1` and `last_epoch=-1` to the base class constructor,
regardless of the `gamma` and `last_epoch` arguments it received; the
base class stores the milestone list, `gamma`, the optimizer's base
learning rates, and `last_epoch`. -/
def MultiStepLR.init (base_lrs : List ℚ) (milestones : List Int)
    (gamma : ℚ) (div_first_epoch : Int) (last_epoch : Int) : MultiStepLRState :=
  { milestones := milestones
    gamma := 1 / 10
    div_first_epoch := div_first_epoch
    last_epoch := -1
    base_lrs := base_lrs }

/-- `MultiStepLR.get_lr` (train.py lines 59–64): in the first epoch, when
`div_first_epoch` is truthy, every base rate is multiplied by `gamma`;
otherwise each base rate is multiplied by `gamma ** bisect_right(milestones,
last_epoch)`. -/
def MultiStepLR.get_lr (s : MultiStepLRState) : List ℚ :=
  if s.last_epoch < 1 ∧ s.div_first_epoch ≠ 0 then
    s.base_lrs.map (fun base_lr => base_lr * s.gamma)
  else
    s.base_lrs.map
      (fun base_lr => base_lr * s.gamma ^ bisect_right s.milestones s.last_epoch)

/-- `scheduler.step()` of the external base class with no epoch argument:
advances `last_epoch` by one (the new rates are then read off `get_lr`). -/
def MultiStepLR.step (s : MultiStepLRState) : MultiStepLRState :=
  { s with last_epoch := s.last_epoch + 1 }

/-- `k` successive calls to `scheduler.step()`. -/
def MultiStepLR.stepN : Nat → MultiStepLRState → MultiStepLRState
  | 0, s => s
  | k + 1, s => MultiStepLR.step (MultiStepLR.stepN k s)

theorem MultiStepLR.stepN_eq (k : Nat) (s : MultiStepLRState) :
    MultiStepLR.stepN k s = { s with last_epoch := s.last_epoch + k } := by
  induction k with
  | zero => simp [MultiStepLR.stepN]
  | succ n ih =>
      simp only [MultiStepLR.stepN, ih, MultiStepLR.step]
      congr 1
      push_cast
      ring

theorem bisect_right_sixty_120 (x : Int) :
    bisect_right [60, 120] x = if x < 60 then 0 else if x < 120 then 1 else 2 := by
  by_cases h120 : x < 120
  · by_cases h60 : x < 60
    · simp [bisect_right, bisect_right_loop, h60, h120]
    · simp [bisect_right, bisect_right_loop, h60, h120]
  · have h60 : ¬ x < 60 := by omega
    simp [bisect_right, bisect_right_loop, h60, h120]

/-! ## build_experiment, scheduler construction (train.py lines 122–134)

`build_experiment` pops `lr_scheduler` from the optimizer configuration; when
present, it reads `milestones`, consumes `milestones[0]` as the
`div_first_epoch` flag, and constructs `MultiStepLR` with the remaining
elements `milestones[1:]`. `milestones[0]` on an empty list raises
`IndexError`. The optimizer's base learning rates stand in for the
optimizer argument. -/

def build_experiment_lr_scheduler (base_lrs : List ℚ) (cfg : Option (List Int)) :
    Except String (Option MultiStepLRState) :=
  match cfg with
  | none => Except.ok none
  | some [] => Except.error ("IndexError: list index out of range")
  | some (m0 :: rest) =>
      Except.ok (some (MultiStepLR.init base_lrs rest (1 / 10) m0 (-1)))

/-- Claim C1: for the schedule built with milestones `[60, 120]`, gamma
`0.1`, base rate `1.0` and first-epoch division disabled, after stepping to
epoch `e` the returned rate is `1.0` for `e < 60`, `0.1` for `60 ≤ e < 120`
and `0.01` for `e ≥ 120`, the step count coming from binary search over the
sorted milestones. -/
theorem multistep_lr_boundary_rates (e : Nat) :
    MultiStepLR.get_lr (MultiStepLR.stepN (e + 1)
        (MultiStepLR.init [1] [60, 120] (1 / 10) 0 (-1)))
      = [if e < 60 then (1 : ℚ) else if e < 120 then 1 / 10 else 1 / 100] := by
  rw [MultiStepLR.stepN_eq]
  have hlast : (-1 : Int) + (e + 1 : Nat) = (e : Int) := by push_cast; ring
  simp only [MultiStepLR.init, MultiStepLR.get_lr, hlast]
  rw [bisect_right_sixty_120]
  by_cases h60 : e < 60
  · have h60' : (e : Int) < 60 := by exact_mod_cast h60
    simp [h60, h60']
  · have h60' : ¬ (e : Int) < 60 := by exact_mod_cast h60
    by_cases h120 : e < 120
    · have h120' : (e : Int) < 120 := by exact_mod_cast h120
      simp [h60, h60', h120, h120']
    · have h120' : ¬ (e : Int) < 120 := by exact_mod_cast h120
      simp [h60, h60', h120, h120']
      norm_num

/-- Claim C9: when a learning-rate schedule is configured,
`build_experiment` consumes the first configured milestone value as the
`div_first_epoch` flag and passes only the remaining values to the
scheduler, so the first configured value never enters the milestone list
by that position. -/
theorem build_experiment_milestones_tail (base_lrs : List ℚ) (m0 : Int)
    (rest : List Int) :
    build_experiment_lr_scheduler base_lrs (some (m0 :: rest))
        = Except.ok (some (MultiStepLR.init base_lrs rest (1 / 10) m0 (-1)))
      ∧ (MultiStepLR.init base_lrs rest (1 / 10) m0 (-1)).milestones = rest
      ∧ (MultiStepLR.init base_lrs rest (1 / 10) m0 (-1)).div_first_epoch = m0 :=
  ⟨rfl, rfl, rfl⟩

/-- Claim C10: the `MultiStepLR` constructor ignores its `gamma` and
`last_epoch` arguments; whatever is passed for them, the constructed
scheduler state has `gamma = 0.1` and `last_epoch = -1`. -/
theorem multistep_lr_ctor_ignores_gamma_last_epoch (base_lrs : List ℚ)
    (milestones : List Int) (gamma : ℚ) (div_first_epoch : Int)
    (last_epoch : Int) :
    (MultiStepLR.init base_lrs milestones gamma div_first_epoch
        last_epoch).gamma = 1 / 10
      ∧ (MultiStepLR.init base_lrs milestones gamma div_first_epoch
          last_epoch).last_epoch = -1 :=
  ⟨rfl, rfl⟩

/-! ## Training driver state (train.py lines 160–254)

The engine state carries the fields the handlers touch (`epoch`,
`iteration`, `last_checkpoint`, `output`); the driver state adds the
`all_stats` accumulator of `train` and the checkpoint store owned by the
external metadata client (`None` when no checkpoint exists). Evaluation
results are abstracted as a map from partition name to the evaluator's
`(accuracy, nll)` metrics, and the `datetime.utcnow()` reads are explicit
integer-timestamp parameters. -/

def TIME_BUFFER : Int := 60 * 5

structure EpochStats where
  epoch : Nat
  metrics : List (String × ℚ × ℚ)
deriving DecidableEq, Repr

structure CheckpointMeta where
  epoch : Nat
  iteration : Nat
  all_stats : List EpochStats
deriving DecidableEq, Repr

structure EngineState where
  epoch : Nat
  iteration : Nat
  last_checkpoint : Int
  output : ℚ
deriving DecidableEq, Repr

structure DriverState where
  engine : EngineState
  all_stats : List EpochStats
  store : Option CheckpointMeta
deriving DecidableEq, Repr

/-- The stats dictionary built at the top of `trainer_save_checkpoint`
(train.py lines 210–220): the epoch number plus, for each of
`train`, `valid`, `test` that appears in `compute_error_rates`, the pair
`(loss = nll, error_rate = 1 - accuracy)` from the evaluator. -/
def epoch_stats_of (compute_error_rates : List String)
    (evalm : String → ℚ × ℚ) (epoch : Nat) : EpochStats :=
  { epoch := epoch
    metrics :=
      (["train", "valid", "test"].filter
          (fun name => compute_error_rates.contains name)).map
        (fun name => (name, (evalm name).2, 1 - (evalm name).1)) }

/-- `trainer_save_checkpoint` (train.py lines 206–235): appends the epoch
stats to `all_stats`, then persists a checkpoint only when more than
`TIME_BUFFER` seconds separate `now` (the `utcnow()` read at the gate)
from `engine.state.last_checkpoint`, resetting `last_checkpoint` to the
`utcnow()` read right after saving (`now_after`). -/
def trainer_save_checkpoint (compute_error_rates : List String)
    (evalm : String → ℚ × ℚ) (now now_after : Int) (s : DriverState) :
    DriverState :=
  let stats := epoch_stats_of compute_error_rates evalm s.engine.epoch
  let s1 : DriverState := { s with all_stats := s.all_stats ++ [stats] }
  if now - s1.engine.last_checkpoint > TIME_BUFFER then
    { s1 with
        store := some { epoch := s1.engine.epoch
                        iteration := s1.engine.iteration
                        all_stats := s1.all_stats }
        engine := { s1.engine with last_checkpoint := now_after } }
  else s1

/-- `load_checkpoint` of the metadata client returns the stored metadata
when a checkpoint exists and nothing otherwise. -/
def load_checkpoint_meta (store : Option CheckpointMeta) : Option CheckpointMeta :=
  store

/-- `trainer_load_checkpoint` (train.py lines 183–197): records the start
time `t0` as `last_checkpoint`, then either restores
`epoch`/`iteration`/`all_stats` from the checkpoint metadata, or — when no
checkpoint exists — zeroes `epoch`, `iteration` and `output` and calls
`trainer_save_checkpoint` (whose gate compares a later `utcnow()` read
`now` against `t0`). -/
def trainer_load_checkpoint (compute_error_rates : List String)
    (evalm : String → ℚ × ℚ) (t0 now now_after : Int) (s : DriverState) :
    DriverState :=
  let s0 : DriverState := { s with engine := { s.engine with last_checkpoint := t0 } }
  match load_checkpoint_meta s0.store with
  | some metadata =>
      { s0 with
          engine := { s0.engine with
                        epoch := metadata.epoch
                        iteration := metadata.iteration }
          all_stats := s0.all_stats ++ metadata.all_stats }
  | none =>
      let s1 : DriverState :=
        { s0 with engine := { s0.engine with epoch := 0, iteration := 0, output := 0 } }
      trainer_save_checkpoint compute_error_rates evalm now now_after s1

/-! ## seed and trainer_seeding (train.py lines 199–204 and 246–254)

The global random-number-generator state of the three libraries the
`seed` helper would touch. In the source every seeding statement in the
body of `seed` is commented out (train.py lines 251–254); only cudnn
benchmarking flags are set, so the function leaves the RNG state exactly
as it found it. -/

structure RngState where
  python_random : Int
  numpy_random : Int
  torch_manual : Int
  torch_cuda : Int
deriving DecidableEq, Repr

/-- `seed` (train.py lines 246–254): the `random.seed`,
`numpy.random.seed`, `torch.manual_seed` and `torch.cuda.manual_seed_all`
calls are all commented out, so the RNG state is returned unchanged. -/
def seed (s : Int) (rng : RngState) : RngState := rng

/-- `trainer_seeding` (train.py lines 199–204): steps the scheduler when
one is configured and calls `seed(sampler_seed + engine.state.epoch)`. -/
def trainer_seeding (sampler_seed : Int) (lr_scheduler : Option MultiStepLRState)
    (engine_epoch : Nat) (rng : RngState) :
    Option MultiStepLRState × RngState :=
  (match lr_scheduler with
   | some sch => some (MultiStepLR.step sch)
   | none => none,
   seed (sampler_seed + engine_epoch) rng)

/-! ## train epilogue (train.py lines 237–243)

After `trainer.run` finishes all epochs, `train` executes
`clear_checkpoint(mahler_client)` and then returns
`{'last': all_stats[-1], 'all': tuple(all_stats)}`. The name
`clear_checkpoint` is resolved against the module's global namespace;
`train_module_globals` lists every name bound at module scope in
train.py (its imports and top-level definitions). -/

def train_module_globals : List String :=
  ["bisect_right", "datetime", "argparse", "pprint", "random", "numpy",
   "Events", "create_supervised_trainer", "create_supervised_evaluator",
   "Timer", "Accuracy", "Loss", "merge_configs", "unflatten", "mahler",
   "torch", "F", "tqdm", "yaml", "build_dataset", "build_model",
   "load_checkpoint", "save_checkpoint", "build_optimizer", "TIME_BUFFER",
   "update", "update_lr", "MultiStepLR", "build_config", "build_experiment",
   "main", "train", "seed"]

inductive TrainResult
  | ok (last : EpochStats) (all : List EpochStats)
  | raised (exn : String)
deriving DecidableEq, Repr

/-- The post-loop epilogue of `train` (train.py lines 240–243): resolve
`clear_checkpoint`, call it to delete the stored checkpoint, and return
the last stats entry together with the whole history; a name missing from
the module globals raises `NameError`, and `all_stats[-1]` on an empty
list raises `IndexError`. Returns the result together with the checkpoint
store as the epilogue leaves it. -/
def train_epilogue (store : Option CheckpointMeta) (all_stats : List EpochStats) :
    TrainResult × Option CheckpointMeta :=
  if train_module_globals.contains ("clear_checkpoint") then
    match all_stats.getLast? with
    | some last => (TrainResult.ok last all_stats, none)
    | none => (TrainResult.raised ("IndexError: list index out of range"), none)
  else
    (TrainResult.raised ("NameError: name clear_checkpoint is not defined"), store)

/-- Claim C2 counterexample: starting the driver with no checkpoint in the
store and with the gate's `utcnow()` read equal to the start time (an
instantaneous first evaluation), the handler zeroes the counters but
persists nothing — the store still holds no checkpoint, refuting
"persists an initial checkpoint before the first epoch runs". -/
theorem initial_checkpoint_not_persisted :
    (trainer_load_checkpoint (["train", "valid"]) (fun _ => (0, 0)) 0 0 0
        { engine := { epoch := 5, iteration := 7, last_checkpoint := -100, output := 0 }
          all_stats := []
          store := none }).engine.epoch = 0
    ∧ (trainer_load_checkpoint (["train", "valid"]) (fun _ => (0, 0)) 0 0 0
        { engine := { epoch := 5, iteration := 7, last_checkpoint := -100, output := 0 }
          all_stats := []
          store := none }).engine.iteration = 0
    ∧ (trainer_load_checkpoint (["train", "valid"]) (fun _ => (0, 0)) 0 0 0
        { engine := { epoch := 5, iteration := 7, last_checkpoint := -100, output := 0 }
          all_stats := []
          store := none }).store = none :=
  ⟨rfl, rfl, rfl⟩

/-- Claim C2 (amended): when the driver starts with no checkpoint in the
store, it zeroes the epoch and iteration counters and invokes the
epoch-completion checkpoint handler, which records an initial stats entry
but persists an initial checkpoint only when more than `TIME_BUFFER`
seconds separate the gate's `utcnow()` read from the start time;
otherwise no checkpoint is persisted before the first epoch. -/
theorem trainer_start_init_and_gated_checkpoint (compute_error_rates : List String)
    (evalm : String → ℚ × ℚ) (t0 now now_after : Int) (s : DriverState)
    (h : s.store = none) :
    (trainer_load_checkpoint compute_error_rates evalm t0 now now_after s).engine.epoch = 0
    ∧ (trainer_load_checkpoint compute_error_rates evalm t0 now now_after
        s).engine.iteration = 0
    ∧ (trainer_load_checkpoint compute_error_rates evalm t0 now now_after s).all_stats
        = s.all_stats ++ [epoch_stats_of compute_error_rates evalm 0]
    ∧ (trainer_load_checkpoint compute_error_rates evalm t0 now now_after s).store
        = (if now - t0 > TIME_BUFFER then
             some { epoch := 0
                    iteration := 0
                    all_stats := s.all_stats ++ [epoch_stats_of compute_error_rates evalm 0] }
           else none) := by
  simp only [trainer_load_checkpoint, load_checkpoint_meta, h]
  by_cases hgate : now - t0 > TIME_BUFFER
  · simp [trainer_save_checkpoint, hgate]
  · simp [trainer_save_checkpoint, hgate, h]

theorem trainer_start_init_and_gated_checkpoint_witness :
    (({ engine := { epoch := 5, iteration := 7, last_checkpoint := -100, output := 0 }
        all_stats := []
        store := none } : DriverState).store = none)
    ∧ ((trainer_load_checkpoint (["train", "valid"]) (fun _ => (0, 0)) 0 1000 1000
          { engine := { epoch := 5, iteration := 7, last_checkpoint := -100, output := 0 }
            all_stats := []
            store := none }).engine.epoch = 0
        ∧ (trainer_load_checkpoint (["train", "valid"]) (fun _ => (0, 0)) 0 1000 1000
            { engine := { epoch := 5, iteration := 7, last_checkpoint := -100, output := 0 }
              all_stats := []
              store := none }).engine.iteration = 0
        ∧ (trainer_load_checkpoint (["train", "valid"]) (fun _ => (0, 0)) 0 1000 1000
            { engine := { epoch := 5, iteration := 7, last_checkpoint := -100, output := 0 }
              all_stats := []
              store := none }).all_stats
            = [] ++ [epoch_stats_of (["train", "valid"]) (fun _ => (0, 0)) 0]
        ∧ (trainer_load_checkpoint (["train", "valid"]) (fun _ => (0, 0)) 0 1000 1000
            { engine := { epoch := 5, iteration := 7, last_checkpoint := -100, output := 0 }
              all_stats := []
              store := none }).store
            = (if (1000 : Int) - 0 > TIME_BUFFER then
                 some { epoch := 0
                        iteration := 0
                        all_stats :=
                          [] ++ [epoch_stats_of (["train", "valid"]) (fun _ => (0, 0)) 0] }
               else none)) :=
  ⟨rfl,
   trainer_start_init_and_gated_checkpoint (["train", "valid"]) (fun _ => (0, 0))
     0 1000 1000
     { engine := { epoch := 5, iteration := 7, last_checkpoint := -100, output := 0 }
       all_stats := []
       store := none } rfl⟩

/-- Claim C4: after the training loop completes, the epilogue of `train`
does not delete the checkpoint and does not return the metric history:
`clear_checkpoint` is bound nowhere in the module, so the call raises
`NameError` and the store is left untouched. -/
theorem train_epilogue_name_error (store : Option CheckpointMeta)
    (all_stats : List EpochStats) :
    train_epilogue store all_stats
        = (TrainResult.raised ("NameError: name clear_checkpoint is not defined"), store)
    ∧ train_module_globals.contains ("clear_checkpoint") = false := by
  have h : train_module_globals.contains ("clear_checkpoint") = false := by decide
  refine ⟨?_, h⟩
  unfold train_epilogue
  rw [h]
  simp

/-- Claim C5: `trainer_seeding` passes `sampler_seed + epoch` to `seed`,
but `seed` leaves the random-number-generator state exactly as it found
it (its seeding statements are commented out), so the data-sampling
randomness is never re-seeded. -/
theorem trainer_seeding_rng_unchanged (sampler_seed : Int)
    (lr_scheduler : Option MultiStepLRState) (engine_epoch : Nat)
    (rng : RngState) :
    (trainer_seeding sampler_seed lr_scheduler engine_epoch rng).2 = rng :=
  rfl

/-! ## tinyimagenet dataset preparation (tinyimagenet.py lines 31–109)

The file system is modelled as the list of names present in the data
directory; the outcome of a call records which preparation actions ran
and whether an exception escaped. Lock acquisition is a boolean
parameter: `true` when `FileLock` raises `Timeout` after waiting
`timeout` seconds. -/

def TRAIN_FILENAME : String := "tinyimagenet_train.h5"
def VAL_FILENAME : String := "tinyimagenet_val.h5"
def DIRNAME : String := "tiny-imagenet-200"
def ZIP_FILENAME : String := "tiny-imagenet-200.zip"

/-- `all_hdf5_exists` (tinyimagenet.py lines 46–48): both container files
are present in the data directory. -/
def all_hdf5_exists (fs : List String) : Bool :=
  [TRAIN_FILENAME, VAL_FILENAME].all (fun filename => fs.contains filename)

inductive FsAction
  | download
  | unzip
  | create_hdf5_train
  | create_hdf5_val
  | remove_tree
deriving DecidableEq, Repr

inductive PyOutcome
  | ok
  | raised (exn : String)
deriving DecidableEq, Repr

/-- `build_dataset` (tinyimagenet.py lines 51–64). When both containers
exist it returns at once. Otherwise it takes the file lock and runs
`download` (skipped when the zip archive is already present), `unzip` and
`create_hdf5`. When the lock wait times out, the `except Timeout` branch
evaluates `print("...").format(timeout)` — `.format` called on the `None`
that `print` returned — which raises `AttributeError`. The `finally`
block always calls `clean`, whose `shutil.rmtree` on the extracted tree
raises `FileNotFoundError` when that tree is absent, replacing the
in-flight exception. -/
def build_dataset (fs : List String) (lock_times_out : Bool) (timeout : Int) :
    PyOutcome × List FsAction :=
  if all_hdf5_exists fs then (PyOutcome.ok, [])
  else
    if lock_times_out then
      if fs.contains DIRNAME then
        (PyOutcome.raised ("AttributeError: NoneType object has no attribute format"),
         [FsAction.remove_tree])
      else
        (PyOutcome.raised ("FileNotFoundError"), [])
    else
      ((PyOutcome.ok),
       (if fs.contains ZIP_FILENAME then [] else [FsAction.download])
         ++ [FsAction.unzip, FsAction.create_hdf5_train, FsAction.create_hdf5_val,
             FsAction.remove_tree])

/-- Claim C3: when the lock wait times out, no message is successfully
logged and `build_dataset` does not return normally — an exception
escapes. With the extracted tree present the misplaced parenthesis in the
`except` branch raises `AttributeError` (`print(...)` returns `None`,
which has no `format` method); with it absent, `clean` in the `finally`
block raises `FileNotFoundError`. -/
theorem build_dataset_timeout_raises :
    (build_dataset [DIRNAME] true 600).1
        = PyOutcome.raised ("AttributeError: NoneType object has no attribute format")
    ∧ (build_dataset [] true 600).1 = PyOutcome.raised ("FileNotFoundError")
    ∧ (build_dataset [ZIP_FILENAME] true 600).1 ≠ PyOutcome.ok := by
  refine ⟨rfl, rfl, ?_⟩
  decide

/-- Claim C7: when both container files already exist, `build_dataset`
returns immediately with no download, extraction, conversion or deletion
— a second call after successful preparation performs no I/O. -/
theorem build_dataset_noop_when_containers_exist (fs : List String)
    (lock_times_out : Bool) (timeout : Int)
    (h : all_hdf5_exists fs = true) :
    build_dataset fs lock_times_out timeout = (PyOutcome.ok, []) := by
  unfold build_dataset
  rw [h]
  simp

theorem build_dataset_noop_witness :
    all_hdf5_exists [TRAIN_FILENAME, VAL_FILENAME] = true
    ∧ build_dataset [TRAIN_FILENAME, VAL_FILENAME] false 600 = (PyOutcome.ok, []) :=
  ⟨by decide,
   build_dataset_noop_when_containers_exist [TRAIN_FILENAME, VAL_FILENAME] false 600
     (by decide)⟩

/-! ## Validation/test split (tinyimagenet.py lines 197–220)

`build` wraps the validation container (length `n`) in two loaders:
the validation loader samples from `range(int(len(dataset) / 2))` and the
test loader from `range(int(len(dataset) / 2), len(dataset))`. -/

/-- Python `range(lo, hi)`: the integers from `lo` (inclusive) to `hi`
(exclusive). -/
def pyrange (lo hi : Nat) : List Nat :=
  List.range' lo (hi - lo)

/-- Index set handed to the validation loader's sampler:
`range(int(n / 2))`. -/
def valid_indices (n : Nat) : List Nat :=
  pyrange 0 (n / 2)

/-- Index set handed to the test loader's sampler:
`range(int(n / 2), n)`. -/
def test_indices (n : Nat) : List Nat :=
  pyrange (n / 2) n

/-- Claim C8: for a validation container of length `n`, the validation
partition is the contiguous range `[0, n/2)` and the test partition
`[n/2, n)`; the two are disjoint and together they list every index of
the container exactly once. -/
theorem val_test_split_partition (n : Nat) :
    (∀ i, i ∈ valid_indices n → i ∉ test_indices n)
    ∧ valid_indices n ++ test_indices n = pyrange 0 n
    ∧ (∀ i, (valid_indices n ++ test_indices n).count i
          = if i < n then 1 else 0) := by
  have hmem_valid : ∀ i, i ∈ valid_indices n ↔ i < n / 2 := by
    intro i
    simp only [valid_indices, pyrange, Nat.sub_zero]
    rw [List.mem_range'_1]
    omega
  have hmem_test : ∀ i, i ∈ test_indices n ↔ n / 2 ≤ i ∧ i < n := by
    intro i
    simp only [test_indices, pyrange]
    rw [List.mem_range'_1]
    omega
  have happend : valid_indices n ++ test_indices n = pyrange 0 n := by
    have h2 : n / 2 ≤ n := Nat.div_le_self n 2
    simp only [valid_indices, test_indices, pyrange, Nat.sub_zero]
    have h := List.range'_append 0 (n / 2) (n - n / 2) 1
    simpa [Nat.sub_add_cancel h2] using h
  refine ⟨?_, happend, ?_⟩
  · intro i hvalid htest
    rw [hmem_valid] at hvalid
    rw [hmem_test] at htest
    omega
  · intro i
    have hnodup : (valid_indices n ++ test_indices n).Nodup := by
      rw [happend]
      simp only [pyrange, Nat.sub_zero]
      exact List.nodup_range' 0 n
    by_cases hin : i < n
    · have hmem : i ∈ valid_indices n ++ test_indices n := by
        rw [happend]
        simp only [pyrange, Nat.sub_zero]
        rw [List.mem_range'_1]
        omega
      rw [if_pos hin]
      exact List.count_eq_one_of_mem hnodup hmem
    · have hmem : i ∉ valid_indices n ++ test_indices n := by
        rw [happend]
        simp only [pyrange, Nat.sub_zero]
        rw [List.mem_range'_1]
        omega
      rw [if_neg hin]
      exact List.count_eq_zero_of_not_mem hmem

/-! ## Batch submission script (bin/0.benchmark/zoo/save.py)

Python's `str.format` on the templates used here substitutes `{name}`
fields from keyword arguments; a field whose name is missing raises
`KeyError`. The template text is first cut into literal and field tokens,
then each field is looked up in the supplied environment. Before the
third `format` call even runs, Python evaluates its keyword-argument
expressions; the expression `data_wrapper_level` is bound neither among
`main`'s locals nor at module scope, so that evaluation raises
`NameError`. -/

def lbrace : Char := Char.ofNat 123

def rbrace : Char := Char.ofNat 125

inductive FmtTok
  | lit (s : String)
  | field (name : String)
deriving DecidableEq, Repr

/-- Cut a format-string's character list into literal runs and `{name}`
fields. The fuel argument bounds the recursion; `length + 1` always
suffices because each step consumes at least one character. -/
def tokenize_fmt : Nat → List Char → Except String (List FmtTok)
  | 0, _ => Except.error ("fuel exhausted")
  | _, [] => Except.ok []
  | fuel + 1, c :: cs =>
    if c = lbrace then
      match cs.dropWhile (fun d => d ≠ rbrace) with
      | _ :: rest =>
          match tokenize_fmt fuel rest with
          | Except.ok toks =>
              Except.ok
                (FmtTok.field (String.mk (cs.takeWhile (fun d => d ≠ rbrace))) :: toks)
          | Except.error e => Except.error e
      | [] => Except.error ("ValueError: expected closing brace")
    else
      match tokenize_fmt fuel cs with
      | Except.ok (FmtTok.lit s :: toks) =>
          Except.ok (FmtTok.lit (String.mk (c :: s.data)) :: toks)
      | Except.ok toks => Except.ok (FmtTok.lit (String.mk [c]) :: toks)
      | Except.error e => Except.error e

/-- Substitute one token under the keyword-argument environment. -/
def render_tok (env : List (String × String)) : FmtTok → Except String String
  | FmtTok.lit s => Except.ok s
  | FmtTok.field name =>
      match env.find? (fun p => p.1 == name) with
      | some p => Except.ok p.2
      | none => Except.error ("KeyError: " ++ name)

/-- Python `template.format(**env)` for the template subset used in
save.py: tokenize, render every token, concatenate. -/
def py_format (template : String) (env : List (String × String)) :
    Except String String :=
  match tokenize_fmt (template.length + 1) template.data with
  | Except.error e => Except.error e
  | Except.ok toks =>
      match toks.mapM (render_tok env) with
      | Except.error e => Except.error e
      | Except.ok parts => Except.ok (String.join parts)

def EXPERIMENT : String := "benchmark"

def orion_template : String :=
  "orion hunt -n {experiment};{dataset};{model};{version} --config /configs/orion.core/orion_config.yaml"

def kleio_template : String :=
  "kleio run --allow-host-changes --config /config/kleio.core/kleio_config.yaml --tags {experiment};{dataset};{model};{version}"

def script_template : String :=
  "python3.6 /repos/sgd-space/src/sgdad/train.py --config={file_path} --model-seed 1 --sampler-seed 1 --epochs 300"

def commandline_template : String := "{orion} {kleio} {script}"

/-- Names bound at module scope in save.py: its imports and top-level
definitions. -/
def save_module_globals : List String :=
  ["asyncio", "argparse", "os", "execute", "EXPERIMENT", "orion_template",
   "kleio_template", "script_template", "commandline_template", "parse_args",
   "get_instances", "main"]

/-- Local names bound in `main` by the time the script command is
formatted (save.py lines 63–76). -/
def main_local_names : List String :=
  ["argv", "args", "iterator", "futures", "dataset", "model", "file_path",
   "orion", "kleio"]

def save_name_defined (name : String) : Bool :=
  main_local_names.contains name || save_module_globals.contains name

/-- One loop iteration of `main` (save.py lines 69–77): format the
job-scheduler (`orion`) and experiment-tracking (`kleio`) commands, then
format the training-script command — whose keyword arguments mention the
unbound name `data_wrapper_level` — and finally join the three through
`commandline_template`. The produced command line (or the exception that
escapes) is returned; `execute` would only be called on success. -/
def format_instance_commands (version dataset model file_path : String) :
    Except String String :=
  match py_format orion_template
      [("experiment", EXPERIMENT), ("dataset", dataset), ("model", model),
       ("version", version)] with
  | Except.error e => Except.error e
  | Except.ok orion =>
    match py_format kleio_template
        [("experiment", EXPERIMENT), ("dataset", dataset), ("model", model),
         ("version", version)] with
    | Except.error e => Except.error e
    | Except.ok kleio =>
        if save_name_defined ("data_wrapper_level") then
          match py_format script_template [("file_path", file_path)] with
          | Except.error e => Except.error e
          | Except.ok script =>
              match py_format commandline_template
                  [("kleio", kleio), ("script", script)] with
              | Except.error e => Except.error e
              | Except.ok commandline => Except.ok commandline
        else
          Except.error ("NameError: name data_wrapper_level is not defined")

set_option maxRecDepth 8192 in
/-- Claim C6: invoked with `--print-only` on a configuration tree with at
least one (dataset, model) pair, `main` does not produce the joined
three-part command line: evaluating the keyword arguments of the
training-script `format` call raises `NameError` (`data_wrapper_level` is
unbound), and even with that name bound the final join would raise
`KeyError` because `commandline_template.format` is given `kleio` and
`script` but not `orion`. -/
theorem save_main_instance_name_error :
    format_instance_commands ("v1") ("tinyimagenet") ("vgg19")
        ("configs/0.benchmark/tinyimagenet/vgg19.yaml")
      = Except.error ("NameError: name data_wrapper_level is not defined")
    ∧ py_format commandline_template [("kleio", "K"), ("script", "S")]
      = Except.error ("KeyError: orion") := by
  constructor
  · rfl
  · rfl
